import Mathlib

set_option maxRecDepth 10000

/-!
Shallow embedding of `src/send_motivation.py`, a daily motivation email
sender.  Pure logic (history truncation, date arithmetic, email body
composition, category labels) is translated directly; each external effect
(the ZenQuotes HTTP fetch, the Claude API call, the SMTP send, the two
`random.choice` draws) is modelled by an explicit oracle input recording
the outcome the environment would have produced, so that `main` becomes a
total function of those oracles.  A `none` / `Except.error` oracle value
models the corresponding Python exception.
-/

namespace SendMotivation

/-- member of the local quote collection (`quotes.json` entries, and the
pairs returned by the quote-fetching helpers): a `text` and a `category`
string. -/
structure Quote where
  text : String
  category : String
deriving DecidableEq, Repr

/-- entry of `quote_history.json`: the generated text and its date stamp
(`YYYY-MM-DD`). -/
structure HistoryEntry where
  text : String
  date : String
deriving DecidableEq, Repr

/-- `get_random_quote(quotes)`: `random.choice(quotes)` raises `IndexError`
on an empty sequence (modelled by `none`) and otherwise returns
`quotes[i]` for a uniformly drawn index `i`; the randomness is modelled by
the oracle index `i`, reduced mod the length so that every oracle value
corresponds to a draw the program could make. -/
def get_random_quote (quotes : List Quote) (i : Nat) : Option (String × String) :=
  if h : quotes.length = 0 then
    none
  else
    let q := quotes.get ⟨i % quotes.length, Nat.mod_lt _ (Nat.pos_of_ne_zero h)⟩
    some (q.text, q.category)

/-- `fetch_api_quote()`: on success the ZenQuotes response yields fields
`q` (quote) and `a` (author), returned as `f"{quote_text} - {author}"`
tagged `"api"`; any failure (timeout, malformed JSON, non-2xx status
raised by `urlopen`) is modelled by the `none` oracle. -/
def fetch_api_quote (response : Option (String × String)) : Option (String × String) :=
  response.map (fun qa => (qa.1 ++ " - " ++ qa.2, "api"))

/-- `save_quote_to_history(quote)`: append `{text: quote, date: today}` to
the loaded history, keep only the last 30 entries (`history[-30:]`), and
persist the result.  The function returns the persisted list. -/
def save_quote_to_history (history : List HistoryEntry) (quote : String)
    (today : String) : List HistoryEntry :=
  let h := history ++ [⟨quote, today⟩]
  h.drop (h.length - 30)

/-- Python `str.strip()`: remove leading and trailing whitespace.  Written
by structural recursion over the character list (rather than with
`String.trim`, whose well-founded recursion does not reduce) so concrete
email bodies evaluate. -/
def pyStrip (s : String) : String :=
  ⟨((s.data.dropWhile Char.isWhitespace).reverse.dropWhile Char.isWhitespace).reverse⟩

/-- whether a Gregorian year is a leap year. -/
def isLeapYear (y : Nat) : Bool :=
  y % 4 = 0 && (y % 100 != 0 || y % 400 = 0)

/-- number of days in a given month of a given year. -/
def daysInMonth (y m : Nat) : Nat :=
  if m = 2 then (if isLeapYear y then 29 else 28)
  else if m = 4 ∨ m = 6 ∨ m = 9 ∨ m = 11 then 30
  else 31

/-- a calendar date, as produced by `datetime.strptime(s, "%Y-%m-%d")` or
`datetime.now()` (the time-of-day component is dropped: see
`calculate_days_since_start`). -/
structure Date where
  year : Nat
  month : Nat
  day : Nat
deriving DecidableEq, Repr

/-- serial day number of a civil date (days since 1970-01-01, the standard
days-from-civil computation); this is the value `datetime.toordinal` is an
offset of, so `(a - b).days = daysFromCivil a - daysFromCivil b` for
midnight datetimes. -/
def daysFromCivil (dt : Date) : Int :=
  let y : Int := (dt.year : Int) - (if dt.month ≤ 2 then 1 else 0)
  let era : Int := y / 400
  let yoe : Int := y - era * 400
  let mp : Int := (dt.month : Int) + (if 2 < dt.month then -3 else 9)
  let doy : Int := (153 * mp + 2) / 5 + (dt.day : Int) - 1
  let doe : Int := yoe * 365 + yoe / 4 - yoe / 100 + doy
  era * 146097 + doe - 719468

/-- split a character list at `-` separators (the `"%Y-%m-%d"` field
separator); structural so that concrete parses evaluate. -/
def splitDash : List Char → List (List Char)
  | [] => [[]]
  | c :: rest =>
    let r := splitDash rest
    if c = '-' then [] :: r
    else
      match r with
      | [] => [[c]]
      | f :: fs => (c :: f) :: fs

/-- parse a nonempty all-digit character list as a natural number. -/
def parseNatDigits (l : List Char) : Option Nat :=
  if l ≠ [] ∧ l.all Char.isDigit then
    some (l.foldl (fun n c => n * 10 + (c.toNat - 48)) 0)
  else none

/-- `datetime.strptime(s, "%Y-%m-%d")`: parse a `YYYY-MM-DD` string,
raising (`none`) on any malformed field or out-of-range month/day. -/
def parse_date (s : String) : Option Date :=
  match splitDash s.data with
  | [ys, ms, ds] =>
    match parseNatDigits ys, parseNatDigits ms, parseNatDigits ds with
    | some y, some m, some d =>
      if 1 ≤ m ∧ m ≤ 12 ∧ 1 ≤ d ∧ d ≤ daysInMonth y m then some ⟨y, m, d⟩ else none
    | _, _, _ => none
  | _ => none

/-- default for the `START_DATE` environment variable. -/
def default_start_date : String := "2025-01-15"

/-- `calculate_days_since_start()`: `(datetime.now() - start_date).days`
where `start_date` parses `START_DATE` (default `"2025-01-15"`) at
midnight.  Since `now - start` is `Δdays` whole days plus a nonnegative
sub-day remainder, `timedelta.days` equals the serial-day difference of
the two calendar dates. -/
def calculate_days_since_start (startDateOverride : Option String) (today : Date) :
    Option Int :=
  let start_date_str := startDateOverride.getD default_start_date
  (parse_date start_date_str).map (fun start => daysFromCivil today - daysFromCivil start)

/-- ways `fetch_claude_quote()` can raise: the `KeyError` from
`os.environ["ANTHROPIC_API_KEY"]`, or the `urllib.error.HTTPError` that is
logged and re-raised (any other request failure, e.g. a timeout, behaves
the same for the caller and is modelled by an HTTP error code). -/
inductive ClaudeError where
  | missingKey : ClaudeError
  | httpError : Nat → ClaudeError
deriving DecidableEq, Repr

/-- the constant fallback used by `main` when `fetch_claude_quote` raises. -/
def fallback_quote : String :=
  "Every step forward, no matter how small, is a victory worth celebrating."

/-- `fetch_claude_quote()`: reads `ANTHROPIC_API_KEY` (raising `KeyError`
if absent), builds a prompt from the 5 most recent history entries, and
POSTs it; the network interaction is modelled by the `response` oracle
(`Except.error code` = HTTP failure, `Except.ok text` = the generated
text).  On success the stripped text is appended to the history via
`save_quote_to_history` and returned with the updated history; on failure
the error propagates to the caller and the history is untouched. -/
def fetch_claude_quote (apiKey : Option String) (history : List HistoryEntry)
    (today : String) (response : Except Nat String) :
    Except ClaudeError (String × List HistoryEntry) :=
  match apiKey with
  | none => Except.error ClaudeError.missingKey
  | some _ =>
    match response with
    | Except.error code => Except.error (ClaudeError.httpError code)
    | Except.ok text =>
      let quote_text := pyStrip text
      Except.ok (quote_text, save_quote_to_history history quote_text today)

/-- the `category_labels` dict of `create_email_body`. -/
def category_labels (c : String) : Option String :=
  if c = "general" then some "Daily Motivation"
  else if c = "smoking" then some "Smoke-Free Journey"
  else if c = "alcohol" then some "Sobriety Strength"
  else if c = "gaming" then some "Real Life Focus"
  else none

/-- the f-string template of `create_email_body`, after the `local_label`
lookup has been resolved; `.strip()` is applied by `create_email_body`. -/
def email_template (local_label local_quote api_quote claude_quote : String)
    (days : Int) : String :=
  "\nGood morning!\n\nDay " ++ toString days ++
  " of your journey to a better life.\n\n---\n\n" ++
  local_label ++ ":\n\n\"" ++ local_quote ++
  "\"\n\n---\n\nWords of Wisdom:\n\n\"" ++ api_quote ++
  "\"\n\n---\n\nRecovery Insight:\n\n\"" ++ claude_quote ++
  "\"\n\n---\n\nYou\x27re doing great. Every day counts. Keep going!\n\n- Your Daily Motivation App\n"

/-- `create_email_body(local_quote, local_category, api_quote,
claude_quote, days)`: look the category up in `category_labels` with
default `"Daily Motivation"`, fill the template, and `.strip()` it. -/
def create_email_body (local_quote local_category api_quote claude_quote : String)
    (days : Int) : String :=
  let local_label := (category_labels local_category).getD "Daily Motivation"
  pyStrip (email_template local_label local_quote api_quote claude_quote days)

/-- `send_email(subject, body)`: reads `GMAIL_ADDRESS`,
`GMAIL_APP_PASSWORD` and `EMAIL_RECIPIENT` (raising `KeyError` if any is
absent), then logs in and sends over SMTP — modelled by the `smtpOk`
oracle (`false` = the login/send raises, which propagates and aborts the
run).  Returns the recipient that was reported to the log. -/
def send_email (gmailAddress gmailPassword recipient : Option String)
    (smtpOk : Bool) : Option String :=
  match gmailAddress, gmailPassword, recipient with
  | some _, some _, some rcpt => if smtpOk then some rcpt else none
  | _, _, _ => none

/-- every input `main` reads from its environment during one run: the
loaded `quotes.json`, the two `random.choice` draws, the two HTTP oracles,
the environment variables, the current date, the loaded history and the SMTP
outcome. -/
structure RunEnv where
  localQuotes : List Quote
  i1 : Nat
  i2 : Nat
  apiResponse : Option (String × String)
  anthropicApiKey : Option String
  claudeResponse : Except Nat String
  startDateOverride : Option String
  today : Date
  todayStr : String
  history : List HistoryEntry
  gmailAddress : Option String
  gmailPassword : Option String
  emailRecipient : Option String
  smtpOk : Bool

/-- what a completed run produced: the three quotes placed in the email,
the persisted history after the run, and the message that was sent. -/
structure RunOutcome where
  local_quote : String
  local_category : String
  api_quote : String
  claude_quote : String
  history : List HistoryEntry
  subject : String
  body : String
  sentTo : String
deriving DecidableEq, Repr

/-- `main()`: draw a local quote (`IndexError` aborts), compute the day
count (`strptime` failure aborts), try the ZenQuotes API falling back to a
second local draw on any exception, try the Claude API falling back to the
constant `fallback_quote` on any exception (including the missing-key
`KeyError`), compose the body, and send the email (missing mail
environment variables or an SMTP failure abort).  `none` models the run
terminating with an unhandled exception. -/
def main_run (env : RunEnv) : Option RunOutcome :=
  match get_random_quote env.localQuotes env.i1 with
  | none => none
  | some (local_quote, local_category) =>
    match calculate_days_since_start env.startDateOverride env.today with
    | none => none
    | some days =>
      let api_pick : Option (String × String) :=
        match fetch_api_quote env.apiResponse with
        | some p => some p
        | none => get_random_quote env.localQuotes env.i2
      match api_pick with
      | none => none
      | some (api_quote, _) =>
        let claude : String × List HistoryEntry :=
          match fetch_claude_quote env.anthropicApiKey env.history env.todayStr
              env.claudeResponse with
          | Except.ok r => r
          | Except.error _ => (fallback_quote, env.history)
        let subject := "Day " ++ toString days ++ ": Your Daily Motivation"
        let body := create_email_body local_quote local_category api_quote claude.1 days
        match send_email env.gmailAddress env.gmailPassword env.emailRecipient
            env.smtpOk with
        | none => none
        | some rcpt =>
          some ⟨local_quote, local_category, api_quote, claude.1, claude.2,
                subject, body, rcpt⟩

/-- Modelled from the spec: `quotes.json`, the bundled local collection, is
not under `src/`; per the data model and glossary of the spec its entries
carry one of the categories general / smoking / alcohol / gaming, while
`api` only tags quotes obtained from the remote API. -/
def local_collection_wf (quotes : List Quote) : Prop :=
  ∀ q ∈ quotes, q.category = "general" ∨ q.category = "smoking" ∨
    q.category = "alcohol" ∨ q.category = "gaming"

/-- a concrete, fully configured environment used to instantiate the
universally quantified theorems below at evaluable inputs. -/
def baseEnv : RunEnv where
  localQuotes := [⟨"Keep going", "general"⟩, ⟨"No smoke", "smoking"⟩]
  i1 := 0
  i2 := 1
  apiResponse := some ("Stay calm", "Zen")
  anthropicApiKey := some "test-key"
  claudeResponse := Except.ok "Breathe."
  startDateOverride := none
  today := ⟨2025, 1, 20⟩
  todayStr := "2025-01-20"
  history := []
  gmailAddress := some "sender@gmail.com"
  gmailPassword := some "app-password"
  emailRecipient := some "friend@example.com"
  smtpOk := true

/-- a successful draw returns the text/category of some member of a
nonempty collection. -/
theorem grq_mem (quotes : List Quote) (i : Nat) (h : quotes ≠ []) :
    ∃ q ∈ quotes, get_random_quote quotes i = some (q.text, q.category) := by
  have hlen : quotes.length ≠ 0 := by simpa using h
  refine ⟨quotes.get ⟨i % quotes.length, Nat.mod_lt _ (Nat.pos_of_ne_zero hlen)⟩,
    List.get_mem _ _ _, ?_⟩
  simp [get_random_quote, hlen]

/-- full characterization of a run that reaches the SMTP send: the local
quote is a member of the collection, the api slot holds the remote quote
on success and a second local draw on failure, the claude slot and the
persisted history follow `fetch_claude_quote`, and the body is the
composed email. -/
theorem main_run_spec (env : RunEnv) (days : Int) (ga gp rc : String)
    (hne : env.localQuotes ≠ [])
    (hdays : calculate_days_since_start env.startDateOverride env.today = some days)
    (hga : env.gmailAddress = some ga) (hgp : env.gmailPassword = some gp)
    (hrc : env.emailRecipient = some rc) (hsmtp : env.smtpOk = true) :
    ∃ o, main_run env = some o ∧
      (∃ q ∈ env.localQuotes, o.local_quote = q.text ∧ o.local_category = q.category) ∧
      (∀ qa : String × String, env.apiResponse = some qa →
        o.api_quote = qa.1 ++ " - " ++ qa.2) ∧
      (env.apiResponse = none → ∃ q ∈ env.localQuotes,
        o.api_quote = q.text ∧
          get_random_quote env.localQuotes env.i2 = some (q.text, q.category)) ∧
      (∀ e, fetch_claude_quote env.anthropicApiKey env.history env.todayStr
          env.claudeResponse = Except.error e →
        o.claude_quote = fallback_quote ∧ o.history = env.history) ∧
      (∀ t hist, fetch_claude_quote env.anthropicApiKey env.history env.todayStr
          env.claudeResponse = Except.ok (t, hist) →
        o.claude_quote = t ∧ o.history = hist) ∧
      o.subject = "Day " ++ toString days ++ ": Your Daily Motivation" ∧
      o.body = create_email_body o.local_quote o.local_category o.api_quote
        o.claude_quote days ∧
      o.sentTo = rc := by
  obtain ⟨q1, hq1m, hq1⟩ := grq_mem env.localQuotes env.i1 hne
  obtain ⟨q2, hq2m, hq2⟩ := grq_mem env.localQuotes env.i2 hne
  cases hcl : fetch_claude_quote env.anthropicApiKey env.history env.todayStr
      env.claudeResponse with
  | error e =>
    cases hapi : env.apiResponse with
    | none =>
      refine ⟨⟨q1.text, q1.category, q2.text, fallback_quote, env.history,
        "Day " ++ toString days ++ ": Your Daily Motivation",
        create_email_body q1.text q1.category q2.text fallback_quote days, rc⟩,
        ?_, ⟨q1, hq1m, rfl, rfl⟩, ?_, ?_, ?_, ?_, rfl, rfl, rfl⟩
      · simp only [main_run, hq1, hdays, hapi, hcl, hq2, hga, hgp, hrc, hsmtp,
          fetch_api_quote, Option.map_none', send_email, if_true]
      · intro qa hqa; exact Option.noConfusion hqa
      · intro _; exact ⟨q2, hq2m, rfl, hq2⟩
      · intro e2 _; exact ⟨rfl, rfl⟩
      · intro t hist hok; exact Except.noConfusion hok
    | some qa =>
      refine ⟨⟨q1.text, q1.category, qa.1 ++ " - " ++ qa.2, fallback_quote, env.history,
        "Day " ++ toString days ++ ": Your Daily Motivation",
        create_email_body q1.text q1.category (qa.1 ++ " - " ++ qa.2) fallback_quote days, rc⟩,
        ?_, ⟨q1, hq1m, rfl, rfl⟩, ?_, ?_, ?_, ?_, rfl, rfl, rfl⟩
      · simp only [main_run, hq1, hdays, hapi, hcl, hga, hgp, hrc, hsmtp,
          fetch_api_quote, Option.map_some', send_email, if_true]
      · intro qa2 hqa2
        obtain h : qa = qa2 := by simpa using hqa2
        subst h; rfl
      · intro hnone; exact Option.noConfusion hnone
      · intro e2 _; exact ⟨rfl, rfl⟩
      · intro t hist hok; exact Except.noConfusion hok
  | ok r =>
    obtain ⟨t0, hist0⟩ := r
    cases hapi : env.apiResponse with
    | none =>
      refine ⟨⟨q1.text, q1.category, q2.text, t0, hist0,
        "Day " ++ toString days ++ ": Your Daily Motivation",
        create_email_body q1.text q1.category q2.text t0 days, rc⟩,
        ?_, ⟨q1, hq1m, rfl, rfl⟩, ?_, ?_, ?_, ?_, rfl, rfl, rfl⟩
      · simp only [main_run, hq1, hdays, hapi, hcl, hq2, hga, hgp, hrc, hsmtp,
          fetch_api_quote, Option.map_none', send_email, if_true]
      · intro qa hqa; exact Option.noConfusion hqa
      · intro _; exact ⟨q2, hq2m, rfl, hq2⟩
      · intro e2 herr; exact Except.noConfusion herr
      · intro t hist hok
        obtain ⟨h1, h2⟩ : t0 = t ∧ hist0 = hist := by simpa using hok
        subst h1; subst h2; exact ⟨rfl, rfl⟩
    | some qa =>
      refine ⟨⟨q1.text, q1.category, qa.1 ++ " - " ++ qa.2, t0, hist0,
        "Day " ++ toString days ++ ": Your Daily Motivation",
        create_email_body q1.text q1.category (qa.1 ++ " - " ++ qa.2) t0 days, rc⟩,
        ?_, ⟨q1, hq1m, rfl, rfl⟩, ?_, ?_, ?_, ?_, rfl, rfl, rfl⟩
      · simp only [main_run, hq1, hdays, hapi, hcl, hga, hgp, hrc, hsmtp,
          fetch_api_quote, Option.map_some', send_email, if_true]
      · intro qa2 hqa2
        obtain h : qa = qa2 := by simpa using hqa2
        subst h; rfl
      · intro hnone; exact Option.noConfusion hnone
      · intro e2 herr; exact Except.noConfusion herr
      · intro t hist hok
        obtain ⟨h1, h2⟩ : t0 = t ∧ hist0 = hist := by simpa using hok
        subst h1; subst h2; exact ⟨rfl, rfl⟩

/-- Claim C1, counterexample: in a run where every external call succeeds,
the composed message holds three pairwise distinct quotes — the local
draw, the remote quote tagged `api`, and the generated quote — so the
program does not select exactly one displayable quote per run by a
coin-flip policy (no coin exists in `main`: all three sources are used
unconditionally). -/
theorem coin_flip_single_quote_cex :
    ((main_run baseEnv).map
      (fun o => (o.local_quote, o.api_quote, o.claude_quote, o.body))) =
      some ("Keep going", "Stay calm - Zen", "Breathe.",
        pyStrip (email_template "Daily Motivation" "Keep going" "Stay calm - Zen"
          "Breathe." 5)) ∧
    ("Keep going" : String) ≠ "Stay calm - Zen" ∧
    ("Stay calm - Zen" : String) ≠ "Breathe." ∧
    ("Keep going" : String) ≠ "Breathe." :=
  ⟨by decide, by decide, by decide, by decide⟩

/-- Claim C1 (amended): per run `main` flips no coin — it unconditionally
draws one local quote, unconditionally attempts the remote quote API
(tagging its quote `api` on success, falling back to a second uniform
local draw on any failure), unconditionally attempts the generative
provider, and composes a message that displays all three quotes. -/
theorem three_sources_every_run (env : RunEnv) (days : Int) (ga gp rc : String)
    (hne : env.localQuotes ≠ [])
    (hdays : calculate_days_since_start env.startDateOverride env.today = some days)
    (hga : env.gmailAddress = some ga) (hgp : env.gmailPassword = some gp)
    (hrc : env.emailRecipient = some rc) (hsmtp : env.smtpOk = true) :
    ∃ o, main_run env = some o ∧
      (∃ q ∈ env.localQuotes, o.local_quote = q.text ∧ o.local_category = q.category) ∧
      (∀ qa : String × String, env.apiResponse = some qa →
        o.api_quote = qa.1 ++ " - " ++ qa.2) ∧
      (env.apiResponse = none → ∃ q ∈ env.localQuotes, o.api_quote = q.text) ∧
      o.body = create_email_body o.local_quote o.local_category o.api_quote
        o.claude_quote days := by
  obtain ⟨o, h1, h2, h3, h4, _, _, _, h8, _⟩ :=
    main_run_spec env days ga gp rc hne hdays hga hgp hrc hsmtp
  exact ⟨o, h1, h2, h3, fun hn => (h4 hn).imp (fun q hq => ⟨hq.1, hq.2.1⟩), h8⟩

/-- witness for `three_sources_every_run` at the concrete `baseEnv`. -/
theorem three_sources_every_run_witness :
    ∃ o, main_run baseEnv = some o ∧
      (∃ q ∈ baseEnv.localQuotes, o.local_quote = q.text ∧ o.local_category = q.category) ∧
      (∀ qa : String × String, baseEnv.apiResponse = some qa →
        o.api_quote = qa.1 ++ " - " ++ qa.2) ∧
      (baseEnv.apiResponse = none → ∃ q ∈ baseEnv.localQuotes, o.api_quote = q.text) ∧
      o.body = create_email_body o.local_quote o.local_category o.api_quote
        o.claude_quote 5 :=
  three_sources_every_run baseEnv 5 "sender@gmail.com" "app-password"
    "friend@example.com" (by decide) (by decide) rfl rfl rfl rfl

/-- Claim C2, counterexample: with `ANTHROPIC_API_KEY` absent and all other
configuration present, the run completes — the `KeyError` is caught by the
blanket handler around the generative call, the constant fallback quote is
used, and the email is still sent — contradicting the claim that the run
terminates as a fatal configuration error with no fallback. -/
theorem missing_api_key_fatal_cex :
    (main_run { baseEnv with anthropicApiKey := none }).isSome = true ∧
    ((main_run { baseEnv with anthropicApiKey := none }).map
      (fun o => (o.claude_quote, o.history, o.sentTo))) =
      some (fallback_quote, ([] : List HistoryEntry), "friend@example.com") :=
  ⟨by decide, by decide⟩

/-- Claim C2 (amended): when the generative-provider API key is absent
from the environment while all other required configuration is present,
the `KeyError` raised inside `fetch_claude_quote` is caught by the
`except Exception` handler in `main`: the run does not terminate, the
constant fallback quote is used, the history is unchanged, and the email
is still sent. -/
theorem missing_api_key_degrades (env : RunEnv) (days : Int) (ga gp rc : String)
    (hkey : env.anthropicApiKey = none)
    (hne : env.localQuotes ≠ [])
    (hdays : calculate_days_since_start env.startDateOverride env.today = some days)
    (hga : env.gmailAddress = some ga) (hgp : env.gmailPassword = some gp)
    (hrc : env.emailRecipient = some rc) (hsmtp : env.smtpOk = true) :
    ∃ o, main_run env = some o ∧ o.claude_quote = fallback_quote ∧
      o.history = env.history ∧ o.sentTo = rc := by
  obtain ⟨o, h1, _, _, _, h5, _, _, _, h9⟩ :=
    main_run_spec env days ga gp rc hne hdays hga hgp hrc hsmtp
  have herr : fetch_claude_quote env.anthropicApiKey env.history env.todayStr
      env.claudeResponse = Except.error ClaudeError.missingKey := by
    simp [fetch_claude_quote, hkey]
  obtain ⟨hc, hh⟩ := h5 _ herr
  exact ⟨o, h1, hc, hh, h9⟩

/-- witness for `missing_api_key_degrades` at `baseEnv` without the key. -/
theorem missing_api_key_degrades_witness :
    ∃ o, main_run { baseEnv with anthropicApiKey := none } = some o ∧
      o.claude_quote = fallback_quote ∧
      o.history = ({ baseEnv with anthropicApiKey := none } : RunEnv).history ∧
      o.sentTo = "friend@example.com" :=
  missing_api_key_degrades _ 5 "sender@gmail.com" "app-password"
    "friend@example.com" rfl (by decide) (by decide) rfl rfl rfl rfl

/-- Claim C3: whenever the generative-provider call fails (any HTTP error
code, e.g. 500), the quote used in the composed message is the constant
fallback string, the persisted history is exactly the loaded one (no
append happens), and the run completes rather than aborting. -/
theorem claude_failure_uses_fallback (env : RunEnv) (code : Nat) (days : Int)
    (ga gp rc : String)
    (hresp : env.claudeResponse = Except.error code)
    (hne : env.localQuotes ≠ [])
    (hdays : calculate_days_since_start env.startDateOverride env.today = some days)
    (hga : env.gmailAddress = some ga) (hgp : env.gmailPassword = some gp)
    (hrc : env.emailRecipient = some rc) (hsmtp : env.smtpOk = true) :
    ∃ o, main_run env = some o ∧ o.claude_quote = fallback_quote ∧
      o.history = env.history ∧
      o.body = create_email_body o.local_quote o.local_category o.api_quote
        fallback_quote days := by
  obtain ⟨o, h1, _, _, _, h5, _, _, h8, _⟩ :=
    main_run_spec env days ga gp rc hne hdays hga hgp hrc hsmtp
  have herr : ∃ e, fetch_claude_quote env.anthropicApiKey env.history env.todayStr
      env.claudeResponse = Except.error e := by
    cases hk : env.anthropicApiKey with
    | none => exact ⟨ClaudeError.missingKey, by simp [fetch_claude_quote, hk]⟩
    | some k => exact ⟨ClaudeError.httpError code, by simp [fetch_claude_quote, hk, hresp]⟩
  obtain ⟨e, he⟩ := herr
  obtain ⟨hc, hh⟩ := h5 e he
  refine ⟨o, h1, hc, hh, ?_⟩
  rw [← hc]; exact h8

/-- witness for `claude_failure_uses_fallback` with an HTTP 500 oracle. -/
theorem claude_failure_uses_fallback_witness :
    ∃ o, main_run { baseEnv with claudeResponse := Except.error 500 } = some o ∧
      o.claude_quote = fallback_quote ∧
      o.history = ({ baseEnv with claudeResponse := Except.error 500 } : RunEnv).history ∧
      o.body = create_email_body o.local_quote o.local_category o.api_quote
        fallback_quote 5 :=
  claude_failure_uses_fallback _ 500 5 "sender@gmail.com" "app-password"
    "friend@example.com" rfl (by decide) (by decide) rfl rfl rfl rfl

/-- Claim C4: appending to a 30-entry history drops the oldest entry and
puts the new entry last, keeping the length at 30; appending to a shorter
history grows it by exactly one with the new entry last and all prior
entries preserved in order. -/
theorem history_append_truncation :
    (∀ (h : List HistoryEntry) (t d : String), h.length = 30 →
      save_quote_to_history h t d = h.drop 1 ++ [⟨t, d⟩] ∧
      (save_quote_to_history h t d).length = 30) ∧
    (∀ (h : List HistoryEntry) (t d : String), h.length < 30 →
      save_quote_to_history h t d = h ++ [⟨t, d⟩] ∧
      (save_quote_to_history h t d).length = h.length + 1) := by
  constructor
  · intro h t d hl
    constructor
    · simp only [save_quote_to_history, List.length_append, List.length_singleton, hl]
      rw [List.drop_append_of_le_length (by omega)]
    · simp only [save_quote_to_history, List.length_drop, List.length_append,
        List.length_singleton, hl]
  · intro h t d hl
    have he : save_quote_to_history h t d = h ++ [⟨t, d⟩] := by
      simp only [save_quote_to_history, List.length_append, List.length_singleton]
      rw [Nat.sub_eq_zero_of_le (by omega), List.drop_zero]
    refine ⟨he, ?_⟩
    rw [he]; simp

/-- witness for `history_append_truncation`: a full 30-entry history and a
one-entry history. -/
theorem history_append_truncation_witness :
    save_quote_to_history (List.replicate 30 ⟨"q", "2025-01-01"⟩) "new" "2025-10-12" =
      (List.replicate 30 (⟨"q", "2025-01-01"⟩ : HistoryEntry)).drop 1 ++
        [⟨"new", "2025-10-12"⟩] ∧
    save_quote_to_history [⟨"a", "2025-01-01"⟩] "new" "2025-10-12" =
      [⟨"a", "2025-01-01"⟩, ⟨"new", "2025-10-12"⟩] :=
  ⟨(history_append_truncation.1 _ "new" "2025-10-12" (by decide)).1,
   (history_append_truncation.2 [⟨"a", "2025-01-01"⟩] "new" "2025-10-12" (by decide)).1⟩

/-- Claim C5: the persisted history never exceeds 30 entries — every
append operation writes a list of length at most 30, whatever the length
of the previously persisted history. -/
theorem history_capped_at_30 (h : List HistoryEntry) (t d : String) :
    (save_quote_to_history h t d).length ≤ 30 := by
  simp only [save_quote_to_history, List.length_drop, List.length_append,
    List.length_singleton]
  omega

/-- Claim C6: the day count is the whole-day difference of the two
calendar dates — for an explicitly configured start it equals
`daysFromCivil today - daysFromCivil start`, the default start is the
constant 2025-01-15, the documented example start=2025-01-15,
today=2025-01-20 evaluates to 5, and within a month the difference is the
difference of the day fields. -/
theorem days_since_start_spec :
    (∀ (s : String) (start today : Date), parse_date s = some start →
      calculate_days_since_start (some s) today =
        some (daysFromCivil today - daysFromCivil start)) ∧
    (∀ today : Date, calculate_days_since_start none today =
      some (daysFromCivil today - daysFromCivil ⟨2025, 1, 15⟩)) ∧
    calculate_days_since_start none ⟨2025, 1, 20⟩ = some 5 ∧
    (∀ (y m d1 d2 : Nat), daysFromCivil ⟨y, m, d2⟩ - daysFromCivil ⟨y, m, d1⟩ =
      (d2 : Int) - d1) := by
  refine ⟨?_, ?_, by decide, ?_⟩
  · intro s start today hp
    simp [calculate_days_since_start, hp]
  · intro today
    have hp : parse_date default_start_date = some ⟨2025, 1, 15⟩ := by decide
    simp [calculate_days_since_start, hp]
  · intro y m d1 d2
    simp only [daysFromCivil]
    omega

/-- witness for `days_since_start_spec` at the documented example dates. -/
theorem days_since_start_spec_witness :
    calculate_days_since_start (some "2025-01-15") ⟨2025, 1, 20⟩ =
      some (daysFromCivil ⟨2025, 1, 20⟩ - daysFromCivil ⟨2025, 1, 15⟩) :=
  days_since_start_spec.1 "2025-01-15" ⟨2025, 1, 15⟩ ⟨2025, 1, 20⟩ (by decide)

/-- Claim C7: the composer is a pure function of its inputs — its output
is the stripped template filled with the label looked up in the static
table — with category `smoking` mapped to the label `Smoke-Free Journey`
whatever the other inputs, and every category outside the table mapped to
the default label `Daily Motivation`. -/
theorem composer_deterministic_labels :
    (∀ (lq c aq cq : String) (d : Int), create_email_body lq c aq cq d =
      pyStrip (email_template ((category_labels c).getD "Daily Motivation")
        lq aq cq d)) ∧
    (∀ (lq aq cq : String) (d : Int), create_email_body lq "smoking" aq cq d =
      pyStrip (email_template "Smoke-Free Journey" lq aq cq d)) ∧
    (∀ c : String, category_labels c = none →
      ∀ (lq aq cq : String) (d : Int), create_email_body lq c aq cq d =
        pyStrip (email_template "Daily Motivation" lq aq cq d)) := by
  refine ⟨fun lq c aq cq d => rfl, fun lq aq cq d => ?_, fun c hc lq aq cq d => ?_⟩
  · simp [create_email_body, category_labels]
  · simp [create_email_body, hc]

/-- witness for `composer_deterministic_labels` at a category outside the
table. -/
theorem composer_deterministic_labels_witness :
    create_email_body "Keep going" "sleep" "A - B" "C" 5 =
      pyStrip (email_template "Daily Motivation" "Keep going" "A - B" "C" 5) :=
  composer_deterministic_labels.2.2 "sleep" (by decide) "Keep going" "A - B" "C" 5

/-- Claim C8: when the remote quote API call fails (timeout or any other
exception), the run does not raise — it completes — and the quote used in
place of the remote one is the text of a member of the local collection
whose category, the local collection being well formed, is not `api`. -/
theorem api_failure_falls_back_to_local (env : RunEnv) (days : Int)
    (ga gp rc : String)
    (hapi : env.apiResponse = none)
    (hwf : local_collection_wf env.localQuotes)
    (hne : env.localQuotes ≠ [])
    (hdays : calculate_days_since_start env.startDateOverride env.today = some days)
    (hga : env.gmailAddress = some ga) (hgp : env.gmailPassword = some gp)
    (hrc : env.emailRecipient = some rc) (hsmtp : env.smtpOk = true) :
    ∃ o, main_run env = some o ∧
      ∃ q ∈ env.localQuotes, o.api_quote = q.text ∧ q.category ≠ "api" := by
  obtain ⟨o, h1, _, _, h4, _, _, _, _, _⟩ :=
    main_run_spec env days ga gp rc hne hdays hga hgp hrc hsmtp
  obtain ⟨q, hqm, hqt, _⟩ := h4 hapi
  refine ⟨o, h1, q, hqm, hqt, ?_⟩
  rcases hwf q hqm with h | h | h | h <;> simp [h]

/-- witness for `api_failure_falls_back_to_local` with a failing remote
API oracle. -/
theorem api_failure_falls_back_to_local_witness :
    ∃ o, main_run { baseEnv with apiResponse := none } = some o ∧
      ∃ q ∈ ({ baseEnv with apiResponse := none } : RunEnv).localQuotes,
        o.api_quote = q.text ∧ q.category ≠ "api" :=
  api_failure_falls_back_to_local _ 5 "sender@gmail.com" "app-password"
    "friend@example.com" rfl (by unfold local_collection_wf; decide) (by decide)
    (by decide) rfl rfl rfl rfl

/-- Claim C9: on any nonempty collection, `get_random_quote` returns the
text and category of some member of the collection. -/
theorem get_random_quote_membership (quotes : List Quote) (i : Nat)
    (h : quotes ≠ []) :
    ∃ q ∈ quotes, get_random_quote quotes i = some (q.text, q.category) :=
  grq_mem quotes i h

/-- witness for `get_random_quote_membership` on a singleton collection. -/
theorem get_random_quote_membership_witness :
    ∃ q ∈ [(⟨"Keep going", "general"⟩ : Quote)],
      get_random_quote [⟨"Keep going", "general"⟩] 3 = some (q.text, q.category) :=
  get_random_quote_membership [⟨"Keep going", "general"⟩] 3 (by decide)

/-- Claim C10: on the empty collection the draw fails (`random.choice`
raises, modelled by `none`) and `main` aborts, while on any nonempty
collection the draw succeeds — non-emptiness is exactly the precondition
under which the error branch is unreachable. -/
theorem get_random_quote_empty_fails :
    (∀ i, get_random_quote [] i = none) ∧
    (∀ env : RunEnv, env.localQuotes = [] → main_run env = none) ∧
    (∀ (quotes : List Quote) (i : Nat), quotes ≠ [] →
      (get_random_quote quotes i).isSome = true) := by
  refine ⟨fun i => by simp [get_random_quote], fun env h => ?_, fun quotes i h => ?_⟩
  · simp [main_run, get_random_quote, h]
  · obtain ⟨q, _, hq⟩ := grq_mem quotes i h
    simp [hq]

/-- witness for `get_random_quote_empty_fails` on the empty and a
singleton collection. -/
theorem get_random_quote_empty_fails_witness :
    get_random_quote [] 7 = none ∧
    main_run { baseEnv with localQuotes := [] } = none ∧
    (get_random_quote [⟨"Keep going", "general"⟩] 7).isSome = true :=
  ⟨get_random_quote_empty_fails.1 7,
   get_random_quote_empty_fails.2.1 _ rfl,
   get_random_quote_empty_fails.2.2 [⟨"Keep going", "general"⟩] 7 (by decide)⟩

end SendMotivation
